import Mathlib

/-!
Verification development for the game-telemetry ingestion/retrieval pipeline
(`game_event_microservice/ai_bridge.py`, `game_event_microservice/ai_bridge_fastapi.py`,
`ai_model_server.py`).

Modelling conventions:
* Python floats (timestamps, hp, stamina, positions, game time) are modelled as `Int`.
  None of the verified properties depend on fractional values or on float semantics;
  only the structural shape of the data (which fields are lists vs. strings vs. numbers)
  and control flow matter.
* The external libraries (ChromaDB, sentence-transformers, base64) are modelled by
  their interfaces: the vector store is an id-to-metadata association list plus an
  add-call counter; embeddings are abstracted away because no verified property
  depends on vector values; base64 decoding is an abstract parameter
  `String -> Option (List Nat)`.
* The asyncio event loop is cooperative: control transfers between coroutines only
  at `await` points.  The background saver body between its `await queue.get()` and
  the end of an iteration contains no `await`, so one loop iteration is modelled as
  one atomic transition (`screenshot_saver_step`); session rollover can interleave
  only between such transitions.
-/

namespace GameBridge

/-- A ChromaDB-style vector index store: records are (id, metadata) pairs in
insertion order; `addCalls` counts how many times `add` was invoked.
Embedding vectors are not modelled: no verified property depends on them. -/
structure Store (μ : Type) where
  records : List (String × μ)
  addCalls : Nat
deriving DecidableEq

/-- `collection.add(ids=…, embeddings=…, metadatas=…)`: one call appends all
given (id, metadata) pairs and bumps the call counter once. -/
def Store.add {μ : Type} (db : Store μ) (ids : List String) (metas : List μ) : Store μ :=
  { records := db.records ++ ids.zip metas, addCalls := db.addCalls + 1 }

/-- First-match association-list lookup (ids are unique in the real store). -/
def alookup {μ : Type} : List (String × μ) → String → Option μ
  | [], _ => none
  | (k, v) :: rest, id => if k = id then some v else alookup rest id

/-- Retrieve the metadata stored under an id. -/
def Store.lookup {μ : Type} (db : Store μ) (id : String) : Option μ :=
  alookup db.records id

/-- `collection.query(query_embeddings=…, n_results=…)['metadatas']`: one inner
list per query embedding, each holding at most `nResults` stored metadatas.
The nearest-neighbour ranking is abstracted to stored order; the verified
properties depend only on how many results come back (in particular, none
from an empty store). -/
def Store.query {μ : Type} (db : Store μ) (queryEmbeddings : List (List Int))
    (nResults : Nat) : List (List μ) :=
  queryEmbeddings.map (fun _ => (db.records.map Prod.snd).take nResults)

/-- The empty collection. -/
def emptyStore (μ : Type) : Store μ := ⟨[], 0⟩

/-- A metadata value as stored in ChromaDB or serialized into a JSON sidecar:
a number, a string, or (illegal for ChromaDB) a list of numbers. -/
inductive MetaVal
  | num (n : Int)
  | str (s : String)
  | numList (xs : List Int)
deriving DecidableEq

/-- ChromaDB only accepts primitive (non-nested) metadata values. -/
def MetaVal.isPrimitive : MetaVal → Bool
  | .numList _ => false
  | _ => true

/-- A Python dict of metadata values, in insertion order. -/
abbrev StateDict := List (String × MetaVal)

/-- Every value of the dict is storage-primitive. -/
def dictPrimitive (d : StateDict) : Bool :=
  d.all (fun kv => kv.2.isPrimitive)

/-- `CharacterState` (ai_bridge_fastapi.py lines 59-66): one actor's snapshot
state.  `t`, `hp`, `stamina` and the `pos` components are floats in the
source, modelled as `Int`. -/
structure CharacterState where
  t : Int
  actor : String
  pos : List Int
  dir : Int
  hp : Int
  stamina : Int
  action : String
deriving DecidableEq

/-- `GameStateSnapshot` (ai_bridge_fastapi.py lines 68-72). -/
structure GameStateSnapshot where
  type : String
  image : String
  hero_state : CharacterState
  knight_state : CharacterState
deriving DecidableEq

/-- `state.dict()`: the per-actor dict produced by pydantic, field order as
declared. -/
def stateDictOf (s : CharacterState) : StateDict :=
  [("t", .num s.t), ("actor", .str s.actor), ("pos", .numList s.pos),
   ("dir", .num s.dir), ("hp", .num s.hp), ("stamina", .num s.stamina),
   ("action", .str s.action)]

/-- `pos_str = ','.join(map(str, state['pos']))` (line 205). -/
def pos_str (s : CharacterState) : String :=
  String.intercalate "," (s.pos.map toString)

/-- The in-place mutation `state['pos'] = pos_str` (line 206). -/
def flattenPosEntry (d : StateDict) (ps : String) : StateDict :=
  d.map (fun kv => if kv.1 = "pos" then (kv.1, MetaVal.str ps) else kv)

/-- The final value of an actor's dict after the flattening loop
(lines 203-206): `pos` replaced by the comma-joined string. -/
def flatDictOf (s : CharacterState) : StateDict :=
  flattenPosEntry (stateDictOf s) (pos_str s)

/-- `doc_id = f"[t]-[actor]"` (line 213): the per-record ChromaDB id. -/
def docId (s : CharacterState) : String :=
  toString s.t ++ "-" ++ s.actor

/-- The descriptive text embedded for one actor (line 209).  `[hp:.2f]` is
modelled on the integral carrier as the value followed by ".00". -/
def fmt2 (n : Int) : String := toString n ++ ".00"

def snapshotText (s : CharacterState) : String :=
  s.actor ++ " is performing " ++ s.action ++ " at position " ++ pos_str s ++
    " with " ++ fmt2 s.hp ++ " HP and " ++ fmt2 s.stamina ++ " stamina"

/-- One queued item of the screenshot queue (line 196): decoded image bytes
plus the two state dicts.  The queue holds references to the same dict
objects that the handler subsequently flattens in place, and the handler
reaches no suspension point before the flattening, so by the time the saver
task can observe an item its dicts are the flattened ones. -/
structure SnapItem where
  image : List Nat
  hero : StateDict
  knight : StateDict
deriving DecidableEq

/-- The two files a saver iteration writes for one artifact. -/
inductive FileKind
  | png
  | json
deriving DecidableEq

/-- One file written by the background saver: target directory, sequence
number, file kind, and the artifact it belongs to. -/
structure FileWrite where
  folder : String
  seq : Nat
  kind : FileKind
  item : SnapItem
deriving DecidableEq

/-- The process-wide mutable state of ai_bridge_fastapi.py: the session
globals (`SESSION_FOLDER`, `screenshot_counter`, `last_game_time`), the
screenshot queue, the files written so far, and the ChromaDB collection. -/
structure BridgeState where
  sessionFolder : String
  screenshot_counter : Nat
  last_game_time : Int
  queue : List SnapItem
  written : List FileWrite
  db : Store StateDict
deriving DecidableEq

/-- `create_new_session()` (ai_bridge_fastapi.py lines 43-53): the directory
is `os.path.join('screenshots', timestamp)` where `timestamp` is the current
wall-clock time formatted at one-second granularity; the counter and the
game-time tracker are reset.  The formatted timestamp is a parameter here;
directory creation on disk is not modelled. -/
def create_new_session (timestamp : String) (st : BridgeState) : BridgeState :=
  { st with
    sessionFolder := "screenshots/" ++ timestamp
    screenshot_counter := 0
    last_game_time := 0 }

/-- The initial state at process startup, after the startup call to
`create_new_session` (line 56). -/
def initBridgeState (timestamp : String) : BridgeState :=
  create_new_session timestamp
    ⟨"", 0, 0, [], [], emptyStore StateDict⟩

/-- Disk outcome of one saver iteration, injected by the environment:
both writes succeed, the image write raises, or the image write succeeds
and the metadata write raises. -/
inductive WFault
  | ok
  | failImage
  | failJson
deriving DecidableEq

/-- One iteration of `screenshot_saver` (ai_bridge_fastapi.py lines 92-116)
once an item is available: both file paths are computed from the globals
current at dequeue time; on success both files are written and the counter
is incremented; on an exception the handler prints and continues with the
next item, leaving the counter unchanged (the increment at line 113 is
inside the `try`). -/
def screenshot_saver_step (st : BridgeState) (f : WFault) : BridgeState :=
  match st.queue with
  | [] => st
  | item :: rest =>
    let folder := st.sessionFolder
    let n := st.screenshot_counter
    match f with
    | .failImage => { st with queue := rest }
    | .failJson =>
      { st with
        queue := rest
        written := st.written ++ [⟨folder, n, .png, item⟩] }
    | .ok =>
      { st with
        queue := rest
        written := st.written ++ [⟨folder, n, .png, item⟩, ⟨folder, n, .json, item⟩]
        screenshot_counter := n + 1 }

/-- An event-loop-level step: either a session rollover (the `/new_session`
or `new_game_started` handler runs) or one saver iteration. -/
inductive BridgeOp
  | newSession (timestamp : String)
  | saveNext (f : WFault)
deriving DecidableEq

def runOps : BridgeState → List BridgeOp → BridgeState
  | st, [] => st
  | st, (.newSession ts) :: rest => runOps (create_new_session ts st) rest
  | st, (.saveNext f) :: rest => runOps (screenshot_saver_step st f) rest

/-! ### Helper lemmas -/

theorem string_append_cancel_left {a b c : String} (h : a ++ b = a ++ c) : b = c := by
  apply String.ext
  have hd : (a ++ b).data = (a ++ c).data := congrArg String.data h
  rw [String.data_append, String.data_append] at hd
  exact List.append_cancel_left hd

theorem range'_snoc (s n : Nat) : List.range' s (n + 1) = List.range' s n ++ [s + n] := by
  induction n generalizing s with
  | zero => simp [List.range']
  | succ m ih =>
    have : List.range' s (m + 2) = s :: List.range' (s + 1) (m + 1) := rfl
    rw [this, ih (s + 1)]
    simp [List.range']
    omega

/-! ### C4: session rollover -/

/-- Sequence numbers carried by the metadata sidecars written so far: one per
successfully persisted artifact. -/
def jsonSeqs (st : BridgeState) : List Nat :=
  (st.written.filter (fun w => w.kind == FileKind.json)).map FileWrite.seq

/-- C4 (counterexample): the session directory is named by a wall-clock
timestamp formatted at one-second granularity, so two `create_new_session`
calls falling in the same second produce the SAME directory, not two
distinct ones — the claim "calling create_new_session twice yields two
distinct session directories" fails in that case (the counter does restart
at 0). -/
theorem create_new_session_same_second :
    (create_new_session "2025-07-01 10:00:00"
        (create_new_session "2025-07-01 10:00:00" (initBridgeState "boot"))).sessionFolder
      = (create_new_session "2025-07-01 10:00:00" (initBridgeState "boot")).sessionFolder ∧
    (create_new_session "2025-07-01 10:00:00"
        (create_new_session "2025-07-01 10:00:00" (initBridgeState "boot"))).screenshot_counter = 0 :=
  ⟨rfl, rfl⟩

/-- C4 (amended): two `create_new_session` calls whose formatted creation
timestamps differ yield two distinct session directories (each named by its
creation timestamp), and the artifact sequence counter restarts at 0 in the
second session. -/
theorem create_new_session_twice (st : BridgeState) (ts1 ts2 : String)
    (hne : ts1 ≠ ts2) :
    (create_new_session ts1 st).sessionFolder
        ≠ (create_new_session ts2 (create_new_session ts1 st)).sessionFolder ∧
    (create_new_session ts1 st).sessionFolder = "screenshots/" ++ ts1 ∧
    (create_new_session ts2 (create_new_session ts1 st)).sessionFolder = "screenshots/" ++ ts2 ∧
    (create_new_session ts2 (create_new_session ts1 st)).screenshot_counter = 0 := by
  refine ⟨?_, rfl, rfl, rfl⟩
  intro h
  exact hne (string_append_cancel_left h)

/-- Witness for `create_new_session_twice` at concrete timestamps. -/
theorem create_new_session_twice_witness :
    (create_new_session "2025-07-01 10:00:00" (initBridgeState "boot")).sessionFolder
        ≠ (create_new_session "2025-07-01 10:00:01"
            (create_new_session "2025-07-01 10:00:00" (initBridgeState "boot"))).sessionFolder ∧
    (create_new_session "2025-07-01 10:00:00" (initBridgeState "boot")).sessionFolder
        = "screenshots/" ++ "2025-07-01 10:00:00" ∧
    (create_new_session "2025-07-01 10:00:01"
        (create_new_session "2025-07-01 10:00:00" (initBridgeState "boot"))).sessionFolder
        = "screenshots/" ++ "2025-07-01 10:00:01" ∧
    (create_new_session "2025-07-01 10:00:01"
        (create_new_session "2025-07-01 10:00:00" (initBridgeState "boot"))).screenshot_counter
        = 0 :=
  create_new_session_twice (initBridgeState "boot")
    "2025-07-01 10:00:00" "2025-07-01 10:00:01" (by decide)

/-! ### C2: rollover with pending queue items -/

/-- Two pending artifacts queued before a rollover. -/
def pendingItem1 : SnapItem := ⟨[1], [("actor", .str "hero")], [("actor", .str "knight")]⟩

def pendingItem2 : SnapItem := ⟨[2], [("actor", .str "hero")], [("actor", .str "knight")]⟩

/-- A state mid-session: folder from the first session, counter at 5, two
items pending in the queue. -/
def c2Init : BridgeState :=
  { sessionFolder := "screenshots/2025-07-01 10:00:00"
    screenshot_counter := 5
    last_game_time := 0
    queue := [pendingItem1, pendingItem2]
    written := []
    db := emptyStore StateDict }

/-- C2 (counterexample): the saver reads `SESSION_FOLDER` and
`screenshot_counter` at dequeue time (ai_bridge_fastapi.py lines 98-99), so
two items pending at the moment of a rollover are written into the
POST-rollover directory with sequence numbers restarting at 0 — not, as
claimed, into the pre-rollover directory with pre-rollover sequence
numbers. -/
theorem pending_items_use_new_session :
    (runOps c2Init
        [.newSession "2025-07-01 10:05:00", .saveNext .ok, .saveNext .ok]).written.map
        (fun w => (w.folder, w.seq))
      = [("screenshots/2025-07-01 10:05:00", 0), ("screenshots/2025-07-01 10:05:00", 0),
         ("screenshots/2025-07-01 10:05:00", 1), ("screenshots/2025-07-01 10:05:00", 1)] ∧
    c2Init.sessionFolder = "screenshots/2025-07-01 10:00:00" ∧
    c2Init.screenshot_counter = 5 ∧
    ("screenshots/2025-07-01 10:05:00" : String) ≠ "screenshots/2025-07-01 10:00:00" := by
  refine ⟨rfl, rfl, rfl, by decide⟩

/-- C2 (amended): each saver iteration binds the session directory and the
sequence number once, at dequeue time, and uses that one binding for both of
the artifact's files — so a pending item is written into the directory
current when it is processed (after a rollover, the post-rollover directory,
with sequence numbers restarting at 0), and no artifact's files are ever
split across two session directories or two sequence numbers. -/
theorem saver_step_consistent (st : BridgeState) (f : WFault) (w : FileWrite)
    (hw : w ∈ (screenshot_saver_step st f).written.drop st.written.length) :
    w.folder = st.sessionFolder ∧ w.seq = st.screenshot_counter := by
  unfold screenshot_saver_step at hw
  rcases hq : st.queue with _ | ⟨item, rest⟩ <;> rw [hq] at hw
  · simp at hw
  · cases f <;> simp_all <;> rcases hw with rfl | rfl <;> exact ⟨rfl, rfl⟩

/-- Witness for `saver_step_consistent`: processing the first pending item
after the rollover writes both of its files into the post-rollover
directory with sequence number 0. -/
theorem saver_step_consistent_witness :
    (⟨"screenshots/2025-07-01 10:05:00", 0, .json, pendingItem1⟩ : FileWrite) ∈
        (screenshot_saver_step (create_new_session "2025-07-01 10:05:00" c2Init) .ok).written.drop
          (create_new_session "2025-07-01 10:05:00" c2Init).written.length ∧
    (⟨"screenshots/2025-07-01 10:05:00", 0, .json, pendingItem1⟩ : FileWrite).folder
        = (create_new_session "2025-07-01 10:05:00" c2Init).sessionFolder ∧
    (⟨"screenshots/2025-07-01 10:05:00", 0, .json, pendingItem1⟩ : FileWrite).seq
        = (create_new_session "2025-07-01 10:05:00" c2Init).screenshot_counter := by
  have hm : (⟨"screenshots/2025-07-01 10:05:00", 0, .json, pendingItem1⟩ : FileWrite) ∈
      (screenshot_saver_step (create_new_session "2025-07-01 10:05:00" c2Init) .ok).written.drop
        (create_new_session "2025-07-01 10:05:00" c2Init).written.length := by decide
  exact ⟨hm, (saver_step_consistent _ .ok _ hm).1, (saver_step_consistent _ .ok _ hm).2⟩

/-! ### C5: sequence counter within a session -/

/-- An op that performs no session rollover. -/
def BridgeOp.isSave : BridgeOp → Bool
  | .saveNext _ => true
  | .newSession _ => false

/-- A session start with two items already queued and nothing written. -/
def c5Init : BridgeState :=
  { sessionFolder := "screenshots/2025-07-01 11:00:00"
    screenshot_counter := 0
    last_game_time := 0
    queue := [pendingItem1, pendingItem2]
    written := []
    db := emptyStore StateDict }

/-- C5 (counterexample): the counter increment sits inside the `try` after
both writes (line 113), so when an item's metadata write fails after its
image write succeeded, the counter is not incremented and the SAME sequence
number is reused for the next, different artifact: here sequence number 0
names `pendingItem1`'s image and then both files of `pendingItem2`,
falsifying "never reused for two different artifacts — including across
items whose write fails". -/
theorem seq_reused_after_failure :
    (runOps c5Init [.saveNext .failJson, .saveNext .ok]).written
      = [⟨"screenshots/2025-07-01 11:00:00", 0, .png, pendingItem1⟩,
         ⟨"screenshots/2025-07-01 11:00:00", 0, .png, pendingItem2⟩,
         ⟨"screenshots/2025-07-01 11:00:00", 0, .json, pendingItem2⟩] ∧
    pendingItem1 ≠ pendingItem2 := by
  exact ⟨rfl, by decide⟩

/-- Invariant: over rollover-free steps the counter never decreases, the
sidecar sequence numbers written so far are exactly the consecutive block
from the session's starting counter value, and every step consumes exactly
one queued item (a failure never stops the worker). -/
theorem runOps_saves_inv (ops : List BridgeOp) (st : BridgeState) (c : Nat)
    (hsave : ∀ op ∈ ops, op.isSave = true)
    (hc : c ≤ st.screenshot_counter)
    (hj : jsonSeqs st = List.range' c (st.screenshot_counter - c)) :
    c ≤ (runOps st ops).screenshot_counter ∧
    jsonSeqs (runOps st ops) = List.range' c ((runOps st ops).screenshot_counter - c) ∧
    (runOps st ops).queue = st.queue.drop ops.length := by
  induction ops generalizing st with
  | nil => simpa [runOps] using ⟨hc, hj⟩
  | cons op rest ih =>
    cases op with
    | newSession ts =>
      have hs := hsave (BridgeOp.newSession ts) (List.mem_cons_self _ _)
      simp [BridgeOp.isSave] at hs
    | saveNext f =>
      have hrest : ∀ op ∈ rest, op.isSave = true :=
        fun o ho => hsave o (List.mem_cons_of_mem _ ho)
      simp only [runOps, List.length_cons]
      rcases hq : st.queue with _ | ⟨item, rest'⟩
      · have hstep : screenshot_saver_step st f = st := by
          unfold screenshot_saver_step; rw [hq]
        have h := ih (screenshot_saver_step st f) hrest (by rw [hstep]; exact hc)
          (by rw [hstep]; exact hj)
        refine ⟨h.1, h.2.1, ?_⟩
        rw [h.2.2, hstep, hq]
        simp
      · have hub : c ≤ (screenshot_saver_step st f).screenshot_counter := by
          unfold screenshot_saver_step; rw [hq]; cases f <;> simp <;> omega
        have hqq : (screenshot_saver_step st f).queue = st.queue.drop 1 := by
          unfold screenshot_saver_step; rw [hq]; cases f <;> simp
        have hjj : jsonSeqs (screenshot_saver_step st f)
            = List.range' c ((screenshot_saver_step st f).screenshot_counter - c) := by
          unfold screenshot_saver_step; rw [hq]; cases f
          · rw [show st.screenshot_counter + 1 - c = (st.screenshot_counter - c) + 1 by omega,
              range'_snoc]
            simp only [jsonSeqs] at hj ⊢
            simp [List.filter_append, hj]
            omega
          · simpa [jsonSeqs] using hj
          · simp only [jsonSeqs] at hj ⊢
            simpa [List.filter_append] using hj
        have h := ih (screenshot_saver_step st f) hrest hub hjj
        refine ⟨h.1, h.2.1, ?_⟩
        rw [h.2.2, hqq, List.drop_drop]
        congr 1
        omega

/-- C5 (amended): within one session (no `create_new_session` between the
steps) the artifact sequence counter is monotonically non-decreasing and is
never decremented; the sidecars of successfully persisted artifacts carry
exactly the consecutive sequence numbers starting from the session's reset
value (each used once, in increasing order); and the worker continues to
the next item after any failed write.  However — as the counterexample
shows — an item whose write fails does not advance the counter, so its
sequence number is reused by the next successful artifact. -/
theorem counter_monotone_in_session (ops : List BridgeOp) (st : BridgeState)
    (hsave : ∀ op ∈ ops, op.isSave = true) (hw : st.written = []) :
    st.screenshot_counter ≤ (runOps st ops).screenshot_counter ∧
    jsonSeqs (runOps st ops)
      = List.range' st.screenshot_counter
          ((runOps st ops).screenshot_counter - st.screenshot_counter) ∧
    (runOps st ops).queue = st.queue.drop ops.length := by
  exact runOps_saves_inv ops st st.screenshot_counter hsave le_rfl
    (by simp [jsonSeqs, hw])

/-- Witness for `counter_monotone_in_session`: a session that saves two items
(one metadata write failing) never decrements its counter, numbers its one
successful sidecar with 0, and drains the queue. -/
theorem counter_monotone_in_session_witness :
    c5Init.screenshot_counter
        ≤ (runOps c5Init [.saveNext .failJson, .saveNext .ok]).screenshot_counter ∧
    jsonSeqs (runOps c5Init [.saveNext .failJson, .saveNext .ok])
      = List.range' c5Init.screenshot_counter
          ((runOps c5Init [.saveNext .failJson, .saveNext .ok]).screenshot_counter
            - c5Init.screenshot_counter) ∧
    (runOps c5Init [.saveNext .failJson, .saveNext .ok]).queue
      = c5Init.queue.drop [BridgeOp.saveNext .failJson, BridgeOp.saveNext .ok].length :=
  counter_monotone_in_session [.saveNext .failJson, .saveNext .ok] c5Init
    (by decide) rfl

/-! ### The `/game_state_snapshot` handler (ai_bridge_fastapi.py lines 181-225) -/

/-- Outcome of the endpoint: HTTP success payload or `HTTPException(500)`. -/
inductive SnapResult
  | success
  | error500
deriving DecidableEq

/-- Python `str.split(sep)` for a one-character separator, at character
level. -/
def pySplitOn (sep : Char) : List Char → List (List Char)
  | [] => [[]]
  | c :: rest =>
    let r := pySplitOn sep rest
    if c = sep then [] :: r
    else
      match r with
      | [] => [[c]]
      | g :: gs => (c :: g) :: gs

/-- `base64.b64decode(snapshot.image.split(',')[1])` (line 195): taking index 1
of the split raises when the image string holds no comma, and the decoder
itself (an external library, here the abstract parameter `b64`) can reject
the payload. -/
def decodeImage (b64 : String → Option (List Nat)) (image : String) : Option (List Nat) :=
  match pySplitOn ',' image.data with
  | _ :: part1 :: _ => b64 (String.mk part1)
  | _ => none

/-- `process_game_state_snapshot` (lines 181-225).  Control flow of the
source: extract the two state dicts; update `last_game_time` from the hero
timestamp (lines 190-192, before any decoding); decode the image and
enqueue `(image_data, hero_state, knight_state)` (lines 195-196); flatten
each dict's `pos` in place and build ids (lines 203-214); `db.add` with
both records (line 217).  Any exception inside the `try` yields a 500
response with nothing enqueued and nothing indexed (but with
`last_game_time` already updated).  There is no comparison of the two
states' timestamps anywhere.  Because the queue aliases the dicts that the
handler then flattens before its first suspension point, the queued item
carries the flattened dicts. -/
def process_game_state_snapshot (b64 : String → Option (List Nat))
    (snap : GameStateSnapshot) (st : BridgeState) : BridgeState × SnapResult :=
  let st1 := { st with last_game_time := snap.hero_state.t }
  match decodeImage b64 snap.image with
  | none => (st1, .error500)
  | some image_data =>
    let hero_state := flatDictOf snap.hero_state
    let knight_state := flatDictOf snap.knight_state
    let ids := [docId snap.hero_state, docId snap.knight_state]
    ({ st1 with
        queue := st1.queue ++ [⟨image_data, hero_state, knight_state⟩]
        db := st1.db.add ids [hero_state, knight_state] },
      .success)

/-- A decoder standing in for `base64.b64decode` in concrete runs. -/
def b64Stub (s : String) : Option (List Nat) := some (s.data.map Char.toNat)

/-- A snapshot whose hero and knight states carry different timestamps. -/
def mismatchedSnap : GameStateSnapshot :=
  { type := "game_state_snapshot"
    image := "data:image/png;base64,AAAA"
    hero_state := ⟨100, "hero", [1, 2], 1, 80, 70, "idle"⟩
    knight_state := ⟨101, "knight", [3, 4], -1, 60, 50, "attack"⟩ }

/-- C1 (counterexample): a snapshot with hero timestamp 100 and knight
timestamp 101 is NOT rejected: the handler returns success, enqueues one
item to the persister queue and adds two records to the vector store — it
performs no timestamp-equality validation at all. -/
theorem mismatched_snapshot_accepted :
    mismatchedSnap.hero_state.t ≠ mismatchedSnap.knight_state.t ∧
    (process_game_state_snapshot b64Stub mismatchedSnap (initBridgeState "boot")).2
      = SnapResult.success ∧
    (process_game_state_snapshot b64Stub mismatchedSnap (initBridgeState "boot")).1.queue.length
      = (initBridgeState "boot").queue.length + 1 ∧
    (process_game_state_snapshot b64Stub mismatchedSnap (initBridgeState "boot")).1.db.records.length
      = (initBridgeState "boot").db.records.length + 2 := by
  refine ⟨by decide, rfl, rfl, rfl⟩

/-- C1 (amended): the handler validates nothing about the two timestamps:
every snapshot whose image field decodes is accepted even when the hero and
knight states carry different timestamps — the response is success, exactly
one item is enqueued to the persister queue, and two records are added to
the vector store in one call. -/
theorem snapshot_no_timestamp_validation (b64 : String → Option (List Nat))
    (snap : GameStateSnapshot) (st : BridgeState) (img : List Nat)
    (hmix : snap.hero_state.t ≠ snap.knight_state.t)
    (hdec : decodeImage b64 snap.image = some img) :
    (process_game_state_snapshot b64 snap st).2 = SnapResult.success ∧
    (process_game_state_snapshot b64 snap st).1.queue
      = st.queue ++ [⟨img, flatDictOf snap.hero_state, flatDictOf snap.knight_state⟩] ∧
    (process_game_state_snapshot b64 snap st).1.db.records
      = st.db.records ++ [(docId snap.hero_state, flatDictOf snap.hero_state),
          (docId snap.knight_state, flatDictOf snap.knight_state)] ∧
    (process_game_state_snapshot b64 snap st).1.db.addCalls = st.db.addCalls + 1 := by
  unfold process_game_state_snapshot
  rw [hdec]
  exact ⟨rfl, rfl, rfl, rfl⟩

/-- Witness for `snapshot_no_timestamp_validation` at the concrete
mismatched snapshot. -/
theorem snapshot_no_timestamp_validation_witness :
    (process_game_state_snapshot b64Stub mismatchedSnap (initBridgeState "boot")).2
        = SnapResult.success ∧
    (process_game_state_snapshot b64Stub mismatchedSnap (initBridgeState "boot")).1.queue
      = (initBridgeState "boot").queue ++
          [⟨(decodeImage b64Stub mismatchedSnap.image).getD [],
            flatDictOf mismatchedSnap.hero_state, flatDictOf mismatchedSnap.knight_state⟩] ∧
    (process_game_state_snapshot b64Stub mismatchedSnap (initBridgeState "boot")).1.db.records
      = (initBridgeState "boot").db.records ++
          [(docId mismatchedSnap.hero_state, flatDictOf mismatchedSnap.hero_state),
           (docId mismatchedSnap.knight_state, flatDictOf mismatchedSnap.knight_state)] ∧
    (process_game_state_snapshot b64Stub mismatchedSnap (initBridgeState "boot")).1.db.addCalls
      = (initBridgeState "boot").db.addCalls + 1 :=
  snapshot_no_timestamp_validation b64Stub mismatchedSnap (initBridgeState "boot")
    ((decodeImage b64Stub mismatchedSnap.image).getD []) (by decide) rfl

/-! ### C8: flattened, storage-primitive metadata -/

/-- The `pos` values of the dicts `process_game_state_snapshot` hands to the
store and to the persister queue are comma-joined strings. -/
theorem flatDict_pos_string (s : CharacterState) :
    alookup (flatDictOf s) "pos" = some (MetaVal.str (pos_str s)) := rfl

/-- Every value of a flattened state dict is storage-primitive. -/
theorem flatDict_primitive (s : CharacterState) :
    dictPrimitive (flatDictOf s) = true := rfl

/-- C8: every record the snapshot handler adds to the vector store, and both
state dicts of the item it enqueues for the JSON sidecar, store the `pos`
field as a flat comma-joined string — never as a nested list — and all their
metadata values are storage-primitive numbers or strings.  (The sidecar sees
the flattened dicts because the queue aliases the dict objects the handler
flattens in place before its first suspension point; the saver then
serializes them verbatim.) -/
theorem snapshot_metadata_flat (b64 : String → Option (List Nat))
    (snap : GameStateSnapshot) (st : BridgeState) (img : List Nat)
    (hdec : decodeImage b64 snap.image = some img) :
    ((process_game_state_snapshot b64 snap st).1.db.records.drop
        st.db.records.length).map (fun r => dictPrimitive r.2) = [true, true] ∧
    ((process_game_state_snapshot b64 snap st).1.db.records.drop
        st.db.records.length).map (fun r => alookup r.2 "pos")
      = [some (.str (pos_str snap.hero_state)), some (.str (pos_str snap.knight_state))] ∧
    ((process_game_state_snapshot b64 snap st).1.queue.drop st.queue.length).map
        (fun it => (dictPrimitive it.hero, dictPrimitive it.knight)) = [(true, true)] ∧
    ((process_game_state_snapshot b64 snap st).1.queue.drop st.queue.length).map
        (fun it => (alookup it.hero "pos", alookup it.knight "pos"))
      = [(some (.str (pos_str snap.hero_state)), some (.str (pos_str snap.knight_state)))] := by
  unfold process_game_state_snapshot
  rw [hdec]
  simp only [Store.add, List.drop_left]
  refine ⟨?_, ?_, ?_, ?_⟩ <;>
    simp [flatDict_primitive, flatDict_pos_string, List.zip]

/-- Witness for `snapshot_metadata_flat` at the concrete snapshot. -/
theorem snapshot_metadata_flat_witness :
    ((process_game_state_snapshot b64Stub mismatchedSnap (initBridgeState "boot")).1.db.records.drop
        (initBridgeState "boot").db.records.length).map (fun r => dictPrimitive r.2)
      = [true, true] ∧
    ((process_game_state_snapshot b64Stub mismatchedSnap (initBridgeState "boot")).1.db.records.drop
        (initBridgeState "boot").db.records.length).map (fun r => alookup r.2 "pos")
      = [some (.str (pos_str mismatchedSnap.hero_state)),
         some (.str (pos_str mismatchedSnap.knight_state))] ∧
    ((process_game_state_snapshot b64Stub mismatchedSnap (initBridgeState "boot")).1.queue.drop
        (initBridgeState "boot").queue.length).map
        (fun it => (dictPrimitive it.hero, dictPrimitive it.knight)) = [(true, true)] ∧
    ((process_game_state_snapshot b64Stub mismatchedSnap (initBridgeState "boot")).1.queue.drop
        (initBridgeState "boot").queue.length).map
        (fun it => (alookup it.hero "pos", alookup it.knight "pos"))
      = [(some (.str (pos_str mismatchedSnap.hero_state)),
          some (.str (pos_str mismatchedSnap.knight_state)))] :=
  snapshot_metadata_flat b64Stub mismatchedSnap (initBridgeState "boot")
    ((decodeImage b64Stub mismatchedSnap.image).getD []) rfl

/-! ### Event-batch ingestion (ai_bridge.py, `handler` lines 54-65)

An incoming batch is a JSON array of event dicts.  The handler reads the
keys `pos` (optional), `actor`, `action`, `dir`, `hp` (for the embedded
text) and `t` (for the id); a missing required key raises `KeyError`.  An
event is modelled as a record of optional fields. -/

structure RawEvent where
  actor : Option String
  action : Option String
  dir : Option Int
  hp : Option Int
  t : Option Int
  pos : Option MetaVal
deriving DecidableEq

/-- The flattening loop (lines 56-58): `event['pos']` is replaced by the
comma-joined string only when present and a list. -/
def flattenEventPos (e : RawEvent) : RawEvent :=
  match e.pos with
  | some (MetaVal.numList xs) =>
    { e with pos := some (MetaVal.str (String.intercalate "," (xs.map toString))) }
  | _ => e

/-- The descriptive text of one event (lines 60-62); `none` models the
`KeyError` on the first missing required field, read left to right as in the
source f-string. -/
def eventText (e : RawEvent) : Option String :=
  match e.actor with
  | none => none
  | some a =>
    match e.action with
    | none => none
    | some ac =>
      match e.dir with
      | none => none
      | some d =>
        match e.hp with
        | none => none
        | some hp =>
          some (a ++ " " ++ ac ++ " dir " ++ toString d ++ " hp " ++ fmt2 hp ++ " dist ?")

/-- All five required fields are present. -/
def RawEvent.isValid (e : RawEvent) : Bool :=
  e.actor.isSome && e.action.isSome && e.dir.isSome && e.hp.isSome && e.t.isSome

/-- The deterministic ids `str(e['t'])` of a batch. -/
def eventIds (batch : List RawEvent) : List String :=
  batch.map (fun e => toString (e.t.getD 0))

/-- The list-branch of `handler` (lines 54-65): flatten positions in place,
build all texts (first `KeyError` aborts before any store call), build all
ids (evaluated before `db.add` runs), then add everything to the store in
one call.  An exception leaves the store untouched. -/
def ingest_events (batch : List RawEvent) (db : Store RawEvent) :
    Store RawEvent × Except String Unit :=
  match (batch.map flattenEventPos).mapM eventText with
  | none => (db, .error "KeyError")
  | some _texts =>
    match (batch.map flattenEventPos).mapM RawEvent.t with
    | none => (db, .error "KeyError")
    | some ts => (db.add (ts.map toString) (batch.map flattenEventPos), .ok ())

theorem flattenEventPos_t (e : RawEvent) : (flattenEventPos e).t = e.t := by
  unfold flattenEventPos
  rcases e.pos with _ | p
  · rfl
  · cases p <;> rfl

theorem flattenEventPos_fields (e : RawEvent) :
    (flattenEventPos e).actor = e.actor ∧ (flattenEventPos e).action = e.action ∧
    (flattenEventPos e).dir = e.dir ∧ (flattenEventPos e).hp = e.hp := by
  unfold flattenEventPos
  rcases e.pos with _ | p
  · exact ⟨rfl, rfl, rfl, rfl⟩
  · cases p <;> exact ⟨rfl, rfl, rfl, rfl⟩

theorem eventText_isSome_of_valid (e : RawEvent) (h : e.isValid = true) :
    (eventText (flattenEventPos e)).isSome = true := by
  have hf := flattenEventPos_fields e
  unfold RawEvent.isValid at h
  simp only [Bool.and_eq_true] at h
  unfold eventText
  rw [hf.1, hf.2.1, hf.2.2.1, hf.2.2.2]
  rcases e with ⟨a, ac, d, hp, t, p⟩
  rcases a with _ | a <;> rcases ac with _ | ac <;> rcases d with _ | d <;>
    rcases hp with _ | hp <;> simp_all

/-- `mapM` over `Option` succeeds pointwise. -/
theorem mapM_option_eq_map {α β : Type} (f : α → Option β) (g : α → β)
    (l : List α) (h : ∀ a ∈ l, f a = some (g a)) : l.mapM f = some (l.map g) := by
  induction l with
  | nil => rfl
  | cons x xs ih =>
    have hx := h x (List.mem_cons_self _ _)
    have hxs := ih (fun a ha => h a (List.mem_cons_of_mem _ ha))
    rw [List.mapM_cons, hx, hxs]
    rfl

/-- `mapM` over `Option` fails as soon as one element fails. -/
theorem mapM_option_eq_none {α β : Type} (f : α → Option β) (l : List α)
    (a : α) (ha : a ∈ l) (hf : f a = none) : l.mapM f = none := by
  induction l with
  | nil => simp at ha
  | cons x xs ih =>
    rw [List.mapM_cons]
    rcases List.mem_cons.mp ha with rfl | hmem
    · rw [hf]; rfl
    · rcases hx : f x with _ | v
      · rfl
      · rw [ih hmem]
        rfl

theorem alookup_append_right {μ : Type} (A B : List (String × μ)) (k : String)
    (h : alookup A k = none) : alookup (A ++ B) k = alookup B k := by
  induction A with
  | nil => rfl
  | cons kv rest ih =>
    rcases kv with ⟨k1, v1⟩
    simp only [alookup, List.cons_append] at h ⊢
    by_cases hk : k1 = k
    · simp [hk] at h
    · rw [if_neg hk] at h ⊢
      exact ih h

theorem alookup_zip_nodup {μ : Type} (ids : List String) (ms : List μ)
    (hnd : ids.Nodup) (hlen : ids.length = ms.length) (i : Nat)
    (hi : i < ids.length) (hm : i < ms.length) :
    alookup (ids.zip ms) (ids.get ⟨i, hi⟩) = some (ms.get ⟨i, hm⟩) := by
  induction ids generalizing ms i with
  | nil => simp at hi
  | cons id rest ih =>
    rcases ms with _ | ⟨m, mrest⟩
    · simp at hlen
    · rcases i with _ | j
      · simp [alookup]
      · have hget : rest.get ⟨j, by simpa using hi⟩ ∈ rest := List.get_mem _ _ _
        have hne : id ≠ rest.get ⟨j, by simpa using hi⟩ := by
          intro hcontra
          have hmem : id ∈ rest := by rw [hcontra]; exact hget
          exact (List.nodup_cons.mp hnd).1 hmem
        simp only [List.zip_cons_cons, List.get_cons_succ, alookup]
        rw [if_neg hne]
        exact ih mrest (List.nodup_cons.mp hnd).2 (by simpa using hlen) j
          (by simpa using hi) (by simpa using hm)

/-- C3: for a valid batch (all required fields present, deterministic ids
`str(t)` pairwise distinct and absent from the store), `ingest_events`
succeeds, the store gains exactly one record per input event through exactly
one `add` call, and each event's (flattened) metadata is retrievable under
its id `str(timestamp)`. -/
theorem ingest_events_adds_all (batch : List RawEvent) (db : Store RawEvent)
    (hvalid : ∀ e ∈ batch, e.isValid = true)
    (hnd : (eventIds batch).Nodup)
    (hfresh : ∀ id ∈ eventIds batch, db.lookup id = none) :
    (ingest_events batch db).2 = .ok () ∧
    (ingest_events batch db).1.records.length = db.records.length + batch.length ∧
    (ingest_events batch db).1.addCalls = db.addCalls + 1 ∧
    ∀ e ∈ batch, ∀ τ : Int, e.t = some τ →
      (ingest_events batch db).1.lookup (toString τ) = some (flattenEventPos e) := by
  have htext : (batch.map flattenEventPos).mapM eventText
      = some ((batch.map flattenEventPos).map (fun e => (eventText e).getD "")) := by
    apply mapM_option_eq_map
    intro a ha
    rcases List.mem_map.mp ha with ⟨e, he, rfl⟩
    rcases hs : eventText (flattenEventPos e) with _ | v
    · have := eventText_isSome_of_valid e (hvalid e he)
      rw [hs] at this
      simp at this
    · simp [hs]
  have hts : (batch.map flattenEventPos).mapM RawEvent.t
      = some ((batch.map flattenEventPos).map (fun e => e.t.getD 0)) := by
    apply mapM_option_eq_map
    intro a ha
    rcases List.mem_map.mp ha with ⟨e, he, rfl⟩
    have hv := hvalid e he
    unfold RawEvent.isValid at hv
    simp only [Bool.and_eq_true] at hv
    rw [flattenEventPos_t]
    rcases ht : e.t with _ | τ
    · rw [ht] at hv; simp at hv
    · rfl
  have hids : ((batch.map flattenEventPos).map (fun e => e.t.getD 0)).map toString
      = eventIds batch := by
    unfold eventIds
    rw [List.map_map, List.map_map]
    apply List.map_congr_left
    intro e _
    simp [Function.comp, flattenEventPos_t]
  have hres : ingest_events batch db
      = (db.add (eventIds batch) (batch.map flattenEventPos), .ok ()) := by
    simp only [ingest_events, htext, hts]
    rw [hids]
  rw [hres]
  have hlen : (eventIds batch).length = (batch.map flattenEventPos).length := by
    simp [eventIds]
  refine ⟨rfl, ?_, rfl, ?_⟩
  · simp [Store.add, List.length_zip, hlen.symm, eventIds]
  · intro e he τ ht
    rcases List.mem_iff_get.mp he with ⟨⟨i, hi⟩, rfl⟩
    simp only [List.get_eq_getElem] at ht
    have hid_at : (eventIds batch).get ⟨i, by simpa [eventIds] using hi⟩
        = toString τ := by
      simp only [eventIds, List.get_eq_getElem, List.getElem_map]
      rw [ht]
      rfl
    have hflat_at : (batch.map flattenEventPos).get ⟨i, by simpa using hi⟩
        = flattenEventPos (batch.get ⟨i, hi⟩) := by
      simp only [List.get_eq_getElem, List.getElem_map]
    have hlook : alookup ((eventIds batch).zip (batch.map flattenEventPos))
        (toString τ) = some (flattenEventPos (batch.get ⟨i, hi⟩)) := by
      rw [← hid_at, ← hflat_at]
      exact alookup_zip_nodup _ _ hnd hlen i _ _
    unfold Store.lookup Store.add
    rw [alookup_append_right _ _ _ (by
      have := hfresh (toString τ) (by
        rw [← hid_at]; exact List.get_mem _ _ _)
      simpa [Store.lookup] using this)]
    exact hlook

/-- Witness for `ingest_events_adds_all` on a concrete three-event batch. -/
theorem ingest_events_adds_all_witness :
    (ingest_events
        [⟨some "hero", some "attack", some 1, some 80, some 1, some (.numList [0, 0])⟩,
         ⟨some "hero", some "block", some 1, some 75, some 2, some (.numList [1, 0])⟩,
         ⟨some "hero", some "roll", some (-1), some 75, some 3, none⟩]
        (emptyStore RawEvent)).2 = .ok () ∧
    (ingest_events
        [⟨some "hero", some "attack", some 1, some 80, some 1, some (.numList [0, 0])⟩,
         ⟨some "hero", some "block", some 1, some 75, some 2, some (.numList [1, 0])⟩,
         ⟨some "hero", some "roll", some (-1), some 75, some 3, none⟩]
        (emptyStore RawEvent)).1.records.length = (emptyStore RawEvent).records.length + 3 ∧
    (ingest_events
        [⟨some "hero", some "attack", some 1, some 80, some 1, some (.numList [0, 0])⟩,
         ⟨some "hero", some "block", some 1, some 75, some 2, some (.numList [1, 0])⟩,
         ⟨some "hero", some "roll", some (-1), some 75, some 3, none⟩]
        (emptyStore RawEvent)).1.addCalls = (emptyStore RawEvent).addCalls + 1 ∧
    ∀ e ∈ [⟨some "hero", some "attack", some 1, some 80, some 1, some (.numList [0, 0])⟩,
         ⟨some "hero", some "block", some 1, some 75, some 2, some (.numList [1, 0])⟩,
         (⟨some "hero", some "roll", some (-1), some 75, some 3, none⟩ : RawEvent)],
      ∀ τ : Int, e.t = some τ →
        (ingest_events
          [⟨some "hero", some "attack", some 1, some 80, some 1, some (.numList [0, 0])⟩,
           ⟨some "hero", some "block", some 1, some 75, some 2, some (.numList [1, 0])⟩,
           ⟨some "hero", some "roll", some (-1), some 75, some 3, none⟩]
          (emptyStore RawEvent)).1.lookup (toString τ) = some (flattenEventPos e) := by
  have h := ingest_events_adds_all
    [⟨some "hero", some "attack", some 1, some 80, some 1, some (.numList [0, 0])⟩,
     ⟨some "hero", some "block", some 1, some 75, some 2, some (.numList [1, 0])⟩,
     ⟨some "hero", some "roll", some (-1), some 75, some 3, none⟩]
    (emptyStore RawEvent) (by decide) (by decide) (by decide)
  exact ⟨h.1, h.2.1, h.2.2.1, h.2.2.2⟩

/-- C6: a batch containing a malformed event (a required field missing)
leaves the vector store completely unchanged: the exception fires while
building the texts or the ids, before the single `db.add` call runs. -/
theorem ingest_events_malformed_no_mutation (batch : List RawEvent)
    (db : Store RawEvent) (e : RawEvent) (he : e ∈ batch)
    (hbad : e.isValid = false) :
    (ingest_events batch db).1 = db ∧
    ∃ msg, (ingest_events batch db).2 = .error msg := by
  have hstuck : (batch.map flattenEventPos).mapM eventText = none ∨
      (batch.map flattenEventPos).mapM RawEvent.t = none := by
    rcases hText : eventText (flattenEventPos e) with _ | v
    · exact Or.inl (mapM_option_eq_none _ _ _ (List.mem_map_of_mem _ he) hText)
    · right
      have hfields := flattenEventPos_fields e
      have hall : e.actor.isSome = true ∧ e.action.isSome = true ∧
          e.dir.isSome = true ∧ e.hp.isSome = true := by
        unfold eventText at hText
        rw [hfields.1, hfields.2.1, hfields.2.2.1, hfields.2.2.2] at hText
        rcases e with ⟨a, ac, d, hp, t, p⟩
        rcases a with _ | a <;> rcases ac with _ | ac <;> rcases d with _ | d <;>
          rcases hp with _ | hp <;> simp_all
      have ht : e.t = none := by
        unfold RawEvent.isValid at hbad
        rcases hT : e.t with _ | τ
        · rfl
        · rw [hT] at hbad
          simp [hall.1, hall.2.1, hall.2.2.1, hall.2.2.2] at hbad
      apply mapM_option_eq_none _ _ (flattenEventPos e) (List.mem_map_of_mem _ he)
      rw [flattenEventPos_t, ht]
  have hmain : ingest_events batch db = (db, Except.error "KeyError") := by
    unfold ingest_events
    rcases h1 : (batch.map flattenEventPos).mapM eventText with _ | texts
    · rfl
    · rcases hstuck with h2 | h2
      · rw [h1] at h2; cases h2
      · rw [h2]
  rw [hmain]
  exact ⟨rfl, "KeyError", rfl⟩

/-- Witness for `ingest_events_malformed_no_mutation`: a batch whose second
event is missing its `hp` field mutates nothing. -/
theorem ingest_events_malformed_witness :
    (ingest_events
        [⟨some "hero", some "attack", some 1, some 80, some 1, none⟩,
         ⟨some "knight", some "block", some 1, none, some 2, none⟩]
        (emptyStore RawEvent)).1 = emptyStore RawEvent ∧
    ∃ msg, (ingest_events
        [⟨some "hero", some "attack", some 1, some 80, some 1, none⟩,
         ⟨some "knight", some "block", some 1, none, some 2, none⟩]
        (emptyStore RawEvent)).2 = .error msg :=
  ingest_events_malformed_no_mutation _ (emptyStore RawEvent)
    ⟨some "knight", some "block", some 1, none, some 2, none⟩
    (by decide) (by decide)

/-! ### C9: `/query` on an empty index (ai_bridge_fastapi.py lines 170-178) -/

/-- The `/query` handler: embed the query text (one embedding, via the
external Embedding Provider passed as `embed`), ask the store for 10
nearest records, return `res['metadatas'][0]`.  Any exception inside the
`try` becomes `HTTPException(500)`. -/
def query_events {μ : Type} (embed : String → List Int) (db : Store μ)
    (q : String) : Except Nat (List μ) :=
  match db.query [embed q] 10 with
  | m0 :: _ => .ok m0
  | [] => .error 500

/-- C9: querying an empty Vector Index Store returns an empty metadata
list, not an error, for every query text and every embedding function. -/
theorem query_empty_index {μ : Type} (embed : String → List Int)
    (db : Store μ) (q : String) (hempty : db.records = []) :
    query_events embed db q = .ok [] := by
  unfold query_events Store.query
  rw [hempty]
  rfl

/-- Witness for `query_empty_index` at a concrete query and the fresh empty
collection. -/
theorem query_empty_index_witness :
    query_events (fun _ => []) (emptyStore StateDict) "hero attack" = .ok [] :=
  query_empty_index (fun _ => []) (emptyStore StateDict) "hero attack" rfl

end GameBridge

namespace AIModelServer

/-!
Model of `ai_model_server.py`: the rule-based Suggestion Provider
(`generate_tactical_suggestion` with its `extract_*` parsers, lines
250-404) and the `/ai_suggestion` endpoint (`get_ai_suggestion`, lines
450-485).  Python strings are handled at character level (`List Char`);
`str.lower()` is modelled with `Char.toLower` (ASCII, as produced by the
game client). -/

/-- `sub` is a prefix of `text` (character-level). -/
def isPrefixChars : List Char → List Char → Bool
  | [], _ => true
  | _ :: _, [] => false
  | a :: as, b :: bs => a == b && isPrefixChars as bs

/-- Python `text.find(sub)`: index of the first occurrence, `none` for -1. -/
def strFind (sub : List Char) : List Char → Option Nat
  | [] => if sub.isEmpty then some 0 else none
  | c :: rest =>
    if isPrefixChars sub (c :: rest) then some 0
    else (strFind sub rest).map (· + 1)

/-- Python `sub in text`. -/
def containsStr (text sub : List Char) : Bool :=
  (strFind sub text).isSome

/-- `segment = text[start:start + 50]` (look ahead 50 chars). -/
def sliceSegment (text : List Char) (start : Nat) : List Char :=
  (text.drop start).take 50

/-- `int(number_str)` on a digit string. -/
def digitsToNat (ds : List Char) : Nat :=
  ds.foldl (fun a c => 10 * a + (c.toNat - 48)) 0

/-- Python `number_str.isdigit()` (empty string is False; ASCII digits). -/
def pyIsDigitStr (ds : List Char) : Bool :=
  !ds.isEmpty && ds.all Char.isDigit

/-- The backwards scan shared by `extract_percentage` and `extract_stamina`:
`for i in range(percent_pos - 1, -1, -1): if not segment[i].isdigit(): …`.
Fuel `k + 1` examines index `i = k`; the outer value is `none` when the
loop runs out without hitting a non-digit (the Python function then falls
through), and `some r` when the loop body returns `r` (which is itself
`none` when the collected slice is not a digit string). -/
def backScanNumber (segment : List Char) (pp : Nat) : Nat → Option (Option Nat)
  | 0 => none
  | k + 1 =>
    if (segment.getD k ' ').isDigit then backScanNumber segment pp k
    else
      some (if pyIsDigitStr ((segment.drop (k + 1)).take (pp - (k + 1))) then
        some (digitsToNat ((segment.drop (k + 1)).take (pp - (k + 1))))
      else none)

/-- `extract_percentage` (lines 343-363): find the prefix, look ahead 50
characters, locate `%`, scan backwards for the number. -/
def extract_percentage (text pre : List Char) : Option Nat :=
  match strFind pre text with
  | none => none
  | some start =>
    match strFind ['%'] (sliceSegment text start) with
    | none => none
    | some pp =>
      match backScanNumber (sliceSegment text start) pp pp with
      | some r => r
      | none => none

/-- One iteration of the pattern loop in `extract_stamina`: `none` means
"pattern not found or no percent sign or scan exhausted — try the next
pattern", `some r` means "the loop returned `r`". -/
def staminaFromPattern (text pat : List Char) : Option (Option Nat) :=
  match strFind pat text with
  | none => none
  | some start =>
    match strFind ['%'] (sliceSegment text start) with
    | none => none
    | some pp => backScanNumber (sliceSegment text start) pp pp

/-- `extract_stamina` (lines 365-384): try `"[character] stamina:"`, then the
literal string `"[character].*stamina"` (the source uses `str.find`, so the
`.*` is not a regex). -/
def extract_stamina (text character : List Char) : Option Nat :=
  match staminaFromPattern text (character ++ " stamina:".data) with
  | some r => r
  | none =>
    match staminaFromPattern text (character ++ ".*stamina".data) with
    | some r => r
    | none => none

/-- `extract_distance` (lines 386-394). -/
def extract_distance (text : List Char) : String :=
  if containsStr text "distance: close".data || containsStr text "close combat".data then
    "close"
  else if containsStr text "distance: medium".data || containsStr text "medium range".data then
    "medium"
  else if containsStr text "distance: far".data || containsStr text "far apart".data then
    "far"
  else "unknown"

/-- `extract_phase` (lines 396-404). -/
def extract_phase (text : List Char) : String :=
  if containsStr text "phase: critical".data || containsStr text "critical phase".data then
    "critical"
  else if containsStr text "phase: mid_game".data || containsStr text "mid game".data then
    "mid_game"
  else if containsStr text "phase: early_game".data || containsStr text "early game".data then
    "early_game"
  else "unknown"

/-- Python truthiness of an `Optional[int]`: `None` and `0` are falsy. -/
def truthy (x : Option Nat) : Bool :=
  match x with
  | none => false
  | some n => decide (n ≠ 0)

/-- Python `x and p(x)` for `x : Optional[int]` used in an `if`. -/
def tAnd (x : Option Nat) (p : Nat → Bool) : Bool :=
  match x with
  | none => false
  | some n => decide (n ≠ 0) && p n

/-- The shared question prefix of every rule-based suggestion string. -/
def tacticalLead : String := "What\x27s the best tactical move right now?"

def confidenceLevels : List String := ["Critical", "High", "Medium", "Low"]

/-- TACTICAL COMBAT SCENARIOS, `distance == "close"` block (lines 289-298);
falls through (`none`) when no branch matches. -/
def close_range_tactics (hero_attacking knight_attacking hero_blocking : Bool)
    (hero_stamina knight_stamina : Option Nat) : Option (String × String) :=
  if knight_attacking && tAnd hero_stamina (fun n => decide (30 < n)) then
    if tAnd knight_stamina (fun n => decide (n < 40)) then
      some ("What\x27s the best tactical move right now? ⚔️ Counter-attack opportunity! Enemy attacking but low stamina. Block then immediately counter with melee combo!", "High")
    else
      some ("What\x27s the best tactical move right now? 🛡️ Under attack! Enemy has good stamina. Focus on blocking and look for opening after their combo ends.", "High")
  else if !hero_attacking && tAnd hero_stamina (fun n => decide (50 < n)) then
    some ("What\x27s the best tactical move right now? 🥊 Prime attack position! You have stamina advantage. Initiate aggressive melee combo before they recover!", "High")
  else if hero_blocking && tAnd knight_stamina (fun n => decide (n < 30)) then
    some ("What\x27s the best tactical move right now? 💪 Perfect defense! Enemy low stamina. They\x27ll tire soon - prepare counter-attack when they stop.", "Medium")
  else none

/-- The whole distance-keyed section (lines 289-314): the close block may
fall through; the medium and far blocks always return; unknown distance
skips the section. -/
def distance_tactics (distance phase : String)
    (hero_attacking knight_attacking hero_blocking : Bool)
    (hero_health knight_health hero_stamina knight_stamina : Option Nat) :
    Option (String × String) :=
  if distance = "close" then
    close_range_tactics hero_attacking knight_attacking hero_blocking
      hero_stamina knight_stamina
  else if distance = "medium" then
    if tAnd hero_stamina (fun n => decide (60 < n)) then
      some ("What\x27s the best tactical move right now? 🏃 Optimal engagement distance! Rush in with movement + immediate attack combo. Strike before they can react!", "High")
    else if tAnd knight_health (fun n => decide (70 < n)) &&
        tAnd hero_health (fun n => decide (n < 50)) then
      some ("What\x27s the best tactical move right now? ⚖️ Disadvantaged position. Use hit-and-run tactics. Close distance, single attack, then retreat to medium range.", "Medium")
    else
      some ("What\x27s the best tactical move right now? 🎯 Medium range advantage! Control the engagement. Move closer when they\x27re recovering, back off when they attack.", "Medium")
  else if distance = "far" then
    if phase = "critical" then
      some ("What\x27s the best tactical move right now? 🏃💨 Critical phase - no time to waste! Sprint directly toward enemy. Every second counts!", "High")
    else if tAnd hero_stamina (fun n => decide (80 < n)) then
      some ("What\x27s the best tactical move right now? 🚀 Full stamina at distance! Perfect setup for surprise rush attack. Sprint in and unleash full combo!", "High")
    else
      some ("What\x27s the best tactical move right now? 📍 Too far for effective combat. Move closer while managing stamina. Save energy for the actual fight.", "Medium")
  else none

/-- ADVANCED TACTICAL PATTERNS (lines 317-322): stamina difference, taken
only when both staminas are truthy; falls through when the advantage is in
[-30, 30]. -/
def stamina_comparison_tactics (hero_stamina knight_stamina : Option Nat) :
    Option (String × String) :=
  if truthy hero_stamina && truthy knight_stamina then
    if (hero_stamina.getD 0 : Int) - (knight_stamina.getD 0 : Int) > 30 then
      some ("What\x27s the best tactical move right now? 💪 STAMINA ADVANTAGE! Enemy exhausted. Press aggressive attack - they can\x27t block or dodge effectively!", "High")
    else if (hero_stamina.getD 0 : Int) - (knight_stamina.getD 0 : Int) < -30 then
      some ("What\x27s the best tactical move right now? 🛡️ Stamina disadvantage! Play defensive. Let them waste energy attacking, then counter when they\x27re tired.", "Medium")
    else none
  else none

/-- PHASE-SPECIFIC ADVANCED TACTICS (lines 325-331); the mid-game branch
falls through unless the healths are truthy and within 20 points. -/
def phase_tactics (phase : String) (hero_health knight_health : Option Nat) :
    Option (String × String) :=
  if phase = "early_game" then
    some ("What\x27s the best tactical move right now? 🎯 Early game - gather intelligence! Test their reaction patterns with single attacks. Learn their defensive habits.", "Medium")
  else if phase = "mid_game" then
    if truthy hero_health && truthy knight_health &&
        decide (((hero_health.getD 0 : Int) - (knight_health.getD 0 : Int)).natAbs < 20) then
      some ("What\x27s the best tactical move right now? ⚖️ Even match! Focus on stamina efficiency. Win through better resource management, not just damage.", "Medium")
    else none
  else if phase = "critical" then
    some ("What\x27s the best tactical move right now? ⚠️ CRITICAL ENDGAME! Calculated risks only. One mistake could end it. Focus on guaranteed hits over flashy combos.", "Critical")
  else none

/-- SITUATIONAL AWARENESS plus the DEFAULT TACTICAL ANALYSIS
(lines 334-341): always produces an answer. -/
def situational_tactics (distance : String)
    (hero_attacking knight_attacking knight_blocking : Bool)
    (hero_stamina : Option Nat) : String × String :=
  if knight_blocking && tAnd hero_stamina (fun n => decide (40 < n)) then
    ("What\x27s the best tactical move right now? 🔄 Enemy blocking! Don\x27t waste attacks. Move to their side/back for angle attack, or wait for block to drop.", "Medium")
  else if !hero_attacking && !knight_attacking && distance = "close" then
    ("What\x27s the best tactical move right now? ⚡ Standoff situation! Whoever attacks first has advantage. Be ready to counter or strike first!", "Medium")
  else
    ("What\x27s the best tactical move right now? 🧠 Analyze current situation: Check health/stamina ratios, maintain optimal distance, and look for opponent weaknesses.", "Low")

/-- `generate_tactical_suggestion` (lines 250-341).  The early-return
cascade of the source is rendered as nested conditionals; the sections that
can fall through are combined with `<|>` and a final default, mirroring the
top-to-bottom order of the Python function. -/
def generate_tactical_suggestion (game_state : String) : String × String :=
  let state := game_state.data.map Char.toLower
  let hero_health := extract_percentage state "hero:".data
  let knight_health := extract_percentage state "knight:".data
  let hero_stamina := extract_stamina state "hero".data
  let knight_stamina := extract_stamina state "knight".data
  let distance := extract_distance state
  let phase := extract_phase state
  let hero_attacking := containsStr state "hero attacking".data ||
    containsStr state "hero action: attack".data
  let knight_attacking := containsStr state "knight attacking".data ||
    containsStr state "purple attacking".data
  let hero_blocking := containsStr state "hero blocking".data
  let knight_blocking := containsStr state "knight blocking".data ||
    containsStr state "purple blocking".data
  if tAnd hero_health (fun n => decide (n ≤ 20)) then
    if tAnd hero_stamina (fun n => decide (50 < n)) then
      ("What\x27s the best tactical move right now? 🚨 CRITICAL! Health dangerously low. Use stamina for defensive rolls and blocks. Avoid direct confrontation!", "Critical")
    else
      ("What\x27s the best tactical move right now? 💀 DIRE SITUATION! Low health AND stamina. Play extremely defensively. Look for hit-and-run opportunities only.", "Critical")
  else if tAnd knight_health (fun n => decide (n ≤ 25)) then
    if tAnd hero_stamina (fun n => decide (40 < n)) then
      ("What\x27s the best tactical move right now? 🎯 FINISH HIM! Enemy critically wounded. Use heavy attacks (melee2/special) for the kill shot!", "Critical")
    else
      ("What\x27s the best tactical move right now? ⚡ Enemy weakened but manage stamina! Use basic attacks to finish safely without exhausting yourself.", "High")
  else if tAnd hero_stamina (fun n => decide (n ≤ 20)) then
    if distance = "close" && knight_attacking then
      ("What\x27s the best tactical move right now? 🔋 STAMINA CRISIS! Enemy attacking at close range. Emergency dodge/roll to create space, then recover stamina!", "Critical")
    else
      ("What\x27s the best tactical move right now? ⚠️ Low stamina! Avoid ALL heavy actions. Maintain distance and let stamina regenerate. Block only if necessary.", "High")
  else
    (distance_tactics distance phase hero_attacking knight_attacking hero_blocking
        hero_health knight_health hero_stamina knight_stamina <|>
      stamina_comparison_tactics hero_stamina knight_stamina <|>
      phase_tactics phase hero_health knight_health).getD
    (situational_tactics distance hero_attacking knight_attacking knight_blocking hero_stamina)

/-- A suggestion/confidence pair is well-formed: the suggestion starts with
the shared question prefix and the confidence is one of the four levels. -/
def goodPair (p : String × String) : Bool :=
  tacticalLead.data.isPrefixOf p.1.data && confidenceLevels.contains p.2

theorem close_range_tactics_good (ha ka hb : Bool) (hs ks : Option Nat)
    (r : String × String) (h : close_range_tactics ha ka hb hs ks = some r) :
    goodPair r = true := by
  unfold close_range_tactics at h
  repeat' split at h
  all_goals (cases h <;> decide)

theorem distance_tactics_good (dist ph : String) (ha ka hb : Bool)
    (hh kh hs ks : Option Nat) (r : String × String)
    (h : distance_tactics dist ph ha ka hb hh kh hs ks = some r) :
    goodPair r = true := by
  unfold distance_tactics at h
  repeat' split at h
  all_goals first
    | exact close_range_tactics_good ha ka hb hs ks r h
    | (cases h <;> decide)

theorem stamina_comparison_tactics_good (hs ks : Option Nat)
    (r : String × String) (h : stamina_comparison_tactics hs ks = some r) :
    goodPair r = true := by
  unfold stamina_comparison_tactics at h
  repeat' split at h
  all_goals (cases h <;> decide)

theorem phase_tactics_good (ph : String) (hh kh : Option Nat)
    (r : String × String) (h : phase_tactics ph hh kh = some r) :
    goodPair r = true := by
  unfold phase_tactics at h
  repeat' split at h
  all_goals (cases h <;> decide)

theorem situational_tactics_good (dist : String) (ha ka kb : Bool)
    (hs : Option Nat) :
    goodPair (situational_tactics dist ha ka kb hs) = true := by
  unfold situational_tactics
  repeat' split
  all_goals decide

theorem goodPair_orElse (a b : Option (String × String))
    (hA : ∀ r, a = some r → goodPair r = true)
    (hB : ∀ r, b = some r → goodPair r = true) :
    ∀ r, (a <|> b) = some r → goodPair r = true := by
  intro r hr
  cases a with
  | none => exact hB r hr
  | some x =>
    have hx : x = r := Option.some.inj hr
    subst hx
    exact hA x rfl

theorem goodPair_getD (a : Option (String × String)) (d : String × String)
    (hA : ∀ r, a = some r → goodPair r = true) (hd : goodPair d = true) :
    goodPair (a.getD d) = true := by
  cases a with
  | none => exact hd
  | some x => exact hA x rfl

/-- Every result of the rule-based engine is well-formed, whatever the
input game state. -/
theorem generate_tactical_suggestion_good (s : String) :
    goodPair (generate_tactical_suggestion s) = true := by
  simp only [generate_tactical_suggestion]
  split
  · split <;> decide
  split
  · split <;> decide
  split
  · split <;> decide
  apply goodPair_getD
  · apply goodPair_orElse
    · intro r hr
      exact distance_tactics_good _ _ _ _ _ _ _ _ _ r hr
    · apply goodPair_orElse
      · intro r hr
        exact stamina_comparison_tactics_good _ _ r hr
      · intro r hr
        exact phase_tactics_good _ _ _ r hr
  · exact situational_tactics_good _ _ _ _ _

/-- C10: for every input game-state string, the rule-based generator (a
total function — it cannot raise) yields a suggestion beginning with the
literal question prefix and a confidence drawn from exactly
Critical/High/Medium/Low. -/
theorem tactical_suggestion_wellformed (s : String) :
    tacticalLead.data.isPrefixOf (generate_tactical_suggestion s).1.data = true ∧
    ((generate_tactical_suggestion s).2 = "Critical" ∨
     (generate_tactical_suggestion s).2 = "High" ∨
     (generate_tactical_suggestion s).2 = "Medium" ∨
     (generate_tactical_suggestion s).2 = "Low") := by
  have h := generate_tactical_suggestion_good s
  unfold goodPair at h
  rw [Bool.and_eq_true] at h
  refine ⟨h.1, ?_⟩
  have h2 := h.2
  simp only [confidenceLevels, List.contains_cons, List.contains_nil,
    Bool.or_eq_true, beq_iff_eq] at h2
  tauto

/-! ### The `/ai_suggestion` endpoint (lines 450-485) -/

/-- The degenerate outputs rejected at the end of
`generate_model_suggestion` (line 241). -/
def degenerate_responses : List String := ["no tip", "no tip.", ".", "!", "?"]

/-- The final validation of `generate_model_suggestion` (lines 241-244):
after cleaning, an empty or degenerate suggestion raises (so the primary
provider FAILS rather than returning it); otherwise the model suggestion is
returned with confidence "High".  The inference and token-level cleanup in
front of this check run on the external model and are not modelled; this
function receives the cleaned string. -/
def model_suggestion_check (cleaned : String) : Except String (String × String) :=
  if cleaned = "" ||
      degenerate_responses.contains (String.mk (cleaned.data.map Char.toLower)) then
    .error "Empty or invalid model response"
  else .ok (cleaned, "High")

structure AISuggestionResponse where
  suggestion : String
  confidence : String
  timestamp : Int
  status : String
  model_used : String
deriving DecidableEq

/-- `get_ai_suggestion` (lines 450-485): when the model is loaded, try the
primary provider (whose outcome, success or raised exception, is the
parameter `primary`); on any exception, or when the model is not loaded,
fall back to `generate_tactical_suggestion` and tag the response
`model_used := "rule-based"`; a primary success is tagged
`"phi-3.5-fine-tuned"`.  Either way the status is "success". -/
def get_ai_suggestion (MODEL_LOADED : Bool)
    (primary : Except String (String × String))
    (game_state : String) (timestamp : Int) : AISuggestionResponse :=
  match (if MODEL_LOADED then
      match primary with
      | .ok sc => some (sc.1, sc.2, "phi-3.5-fine-tuned")
      | .error _ => none
    else none) with
  | some scm => ⟨scm.1, scm.2.1, timestamp, "success", scm.2.2⟩
  | none =>
    ⟨(generate_tactical_suggestion game_state).1,
     (generate_tactical_suggestion game_state).2, timestamp, "success", "rule-based"⟩

/-- C7: whenever the primary provider raises — including the case where its
cleaned output is empty or degenerate, which `generate_model_suggestion`
turns into an exception — the `/ai_suggestion` response is tagged with the
rule-based fallback provider and carries a non-empty suggestion; and the
fallback itself is total and non-empty on every input game state. -/
theorem ai_suggestion_fallback (MODEL_LOADED : Bool)
    (primary : Except String (String × String)) (game_state : String)
    (timestamp : Int) (cleaned : String)
    (hfail : (∃ msg, primary = .error msg) ∨
      (primary = model_suggestion_check cleaned ∧
        (cleaned = "" ∨
          degenerate_responses.contains
            (String.mk (cleaned.data.map Char.toLower)) = true))) :
    (get_ai_suggestion MODEL_LOADED primary game_state timestamp).model_used
      = "rule-based" ∧
    (get_ai_suggestion MODEL_LOADED primary game_state timestamp).suggestion ≠ "" ∧
    (generate_tactical_suggestion game_state).1 ≠ "" := by
  have herr : ∃ msg, primary = .error msg := by
    rcases hfail with h | ⟨hp, hdeg⟩
    · exact h
    · refine ⟨"Empty or invalid model response", ?_⟩
      rw [hp]
      unfold model_suggestion_check
      rcases hdeg with h1 | h2
      · simp [h1]
      · have hmem : String.mk (cleaned.data.map Char.toLower) ∈ degenerate_responses := by
          simpa using h2
        simp [hmem]
  rcases herr with ⟨msg, rfl⟩
  have hne : (generate_tactical_suggestion game_state).1 ≠ "" := by
    intro hempty
    have h := generate_tactical_suggestion_good game_state
    unfold goodPair at h
    rw [Bool.and_eq_true, hempty] at h
    have hfalse : tacticalLead.data.isPrefixOf ("" : String).data = false := by decide
    rw [hfalse] at h
    cases h.1
  unfold get_ai_suggestion
  cases MODEL_LOADED <;> exact ⟨rfl, hne, hne⟩

/-- Witness for `ai_suggestion_fallback`: a raised primary inference with
the model loaded falls back to the rule-based provider with a non-empty
suggestion. -/
theorem ai_suggestion_fallback_witness :
    (get_ai_suggestion true (.error "inference failed") "hero: 50% knight: 50%" 0).model_used
      = "rule-based" ∧
    (get_ai_suggestion true (.error "inference failed") "hero: 50% knight: 50%" 0).suggestion
      ≠ "" ∧
    (generate_tactical_suggestion "hero: 50% knight: 50%").1 ≠ "" :=
  ai_suggestion_fallback true (.error "inference failed") "hero: 50% knight: 50%" 0 ""
    (Or.inl ⟨"inference failed", rfl⟩)

end AIModelServer
